import Mathlib

/-!
Shallow embedding of the language-model backend facade of this repository
(source file `src/llm.py`).

The `LLM` class is embedded as a structure together with an explicit
constructor `LLM.init` returning `Except` (Python raising `ValueError`
becomes the `.error` case).  The prompt augmentation inside
`generate_report` is a pure string computation and is embedded verbatim:
the f-string template is split into the literal text before the
validation slot (`promptMid`), the slot contents (`validationSlot`) and
the literal text after the slot (`promptEnd`).  Python's substring test
`needle in hay` is embedded as infix of the character lists.  The two
network-backed adapters are embedded with the provider's response supplied
as an explicit oracle argument (the network is outside the program); each
adapter keeps its source extraction logic: the hosted adapter projects
`response.choices[0].message.content`, the local adapter reads the nested
`message.content` field with Python `dict.get` defaulting and truthiness.
-/

/-- Configuration object consumed by `LLM.__init__` (`config` parameter):
the fields of the external config the source reads. -/
structure Config where
  llm_model_type : String
  openai_model_name : String
  ollama_model_name : String
  ollama_api_url : String

/-- A chat message dict `{"role": ..., "content": ...}`. -/
structure Message where
  role : String
  content : String
deriving DecidableEq

/-- The backend-specific attribute set by `LLM.__init__`: the `openai`
branch stores a client handle (`self.client = OpenAI()`), the `ollama`
branch stores the endpoint (`self.api_url = config.ollama_api_url`). -/
inductive BackendHandle where
  | client : BackendHandle
  | apiUrl : String → BackendHandle
deriving DecidableEq

/-- The state of a successfully constructed `LLM` object. -/
structure LLM where
  config : Config
  model : String
  handle : BackendHandle

/-- Python `str.lower()` applied to the configuration value, embedded as a
character-wise map (basic-latin lowering, which is what matters for the
recognized backend kinds). -/
def pyLower (s : String) : String :=
  ⟨s.data.map Char.toLower⟩

/-- `LLM.__init__`: lowercases `config.llm_model_type`, keeps it as
`self.model`, initialises the matching backend attribute, and raises
`ValueError` (here: `.error`) on any other value. -/
def LLM.init (config : Config) : Except String LLM :=
  let model := pyLower config.llm_model_type
  if model = "openai" then
    .ok { config := config, model := model, handle := .client }
  else if model = "ollama" then
    .ok { config := config, model := model, handle := .apiUrl config.ollama_api_url }
  else
    .error ("不支持的模型类型: " ++ model)

/-- Python substring test `needle in hay`. -/
def pyIn (needle hay : String) : Bool :=
  decide (needle.data <:+: hay.data)

/-- `required_sections` from `generate_report`. -/
def required_sections : List String :=
  ["新增功能", "主要改进", "修复问题"]

/-- `validation_note` from `generate_report`. -/
def validation_note : String :=
  "\n警告：检测到输入结构不完整，请补充[新增功能]、[主要改进]、[修复问题]中的缺失部分"

/-- The literal text of the `optimized_prompt` f-string between
`{system_prompt}` and the validation slot. -/
def promptMid : String :=
  "\n        \n    [报告规范]\n    1. 必须包含的章节：新增功能、主要改进、修复问题\n    2. 每个技术点需标注：\n    - 所属模块（前端/后端/测试）\n    - 关联版本号（如v2.3.1→v2.4.0）\n    - 技术变更类型（功能/优化/修复）\n    3. 不确定信息处理：\n    !时间区间模糊时使用「版本待确认」标注\n    !存在矛盾描述时保留原始提交记录\n    4. 格式要求：\n    → 日期格式ISO 8601（YYYY-MM-DD）\n    → 技术名词首字母大写（如Azure Cosmos）\n    → 禁止使用非标准符号（❌/✅等）\n\n    [输入验证]\n    "

/-- The literal text of the `optimized_prompt` f-string after the
validation slot (up to the closing `\"\"\"`). -/
def promptEnd : String :=
  "\n    "

/-- The conditional expression filling the validation slot:
`validation_note if not all(section in user_content for section in
required_sections) else ""`. -/
def validationSlot (user_content : String) : String :=
  if !(required_sections.all fun sec => pyIn sec user_content) then
    validation_note
  else
    ""

/-- The composed `optimized_prompt` built inside `generate_report`. -/
def optimizedPrompt (system_prompt user_content : String) : String :=
  system_prompt ++ promptMid ++ validationSlot user_content ++ promptEnd

/-- The `messages` list built inside `generate_report`. -/
def reportMessages (system_prompt user_content : String) : List Message :=
  [{ role := "system", content := optimizedPrompt system_prompt user_content },
   { role := "user", content := user_content }]

/-- `message` object inside an OpenAI chat-completion choice; `content`
is the generated text. -/
structure OpenAIChoiceMessage where
  content : String

/-- One element of `response.choices`. -/
structure OpenAIChoice where
  message : OpenAIChoiceMessage

/-- The provider response used by `_generate_report_openai`: an object
with a `choices` list. -/
structure OpenAIResponse where
  choices : List OpenAIChoice

/-- The parsed JSON body used by `_generate_report_ollama`: an optional
`message` object with an optional `content` field (absence covers both a
missing key and an explicit `null`). -/
structure OllamaMessage where
  content : Option String

/-- Parsed JSON response of the Ollama endpoint. -/
structure OllamaResponse where
  message : Option OllamaMessage

/-- The JSON payload dict built by `_generate_report_ollama`. -/
structure OllamaPayload where
  model : String
  messages : List Message
  max_tokens : Nat
  temperature : Rat
  stream : Bool

/-- The payload literal from `_generate_report_ollama`. -/
def ollamaPayloadFor (llm : LLM) (messages : List Message) : OllamaPayload :=
  { model := llm.config.ollama_model_name
    messages := messages
    max_tokens := 4000
    temperature := 0.7
    stream := false }

/-- `_generate_report_openai`, with the provider call
`self.client.chat.completions.create(model := ..., messages := ...)`
abstracted as the oracle `respond`.  The source returns
`response.choices[0].message.content`; indexing an empty list raises
(`IndexError`), embedded as the `.error` case. -/
def LLM.generateReportOpenai (llm : LLM)
    (respond : String → List Message → OpenAIResponse)
    (messages : List Message) : Except String String :=
  let response := respond llm.config.openai_model_name messages
  match response.choices with
  | [] => .error "list index out of range"
  | choice :: _ => .ok choice.message.content

/-- `_generate_report_ollama`, with the network call
`requests.post(self.api_url, json := payload)` abstracted as the oracle
`respond` mapping the posted payload to the parsed JSON body.  The source
reads `response_data.get("message", {}).get("content", None)` and returns
it only when truthy (a non-empty string); otherwise raises `ValueError`. -/
def LLM.generateReportOllama (llm : LLM)
    (respond : OllamaPayload → OllamaResponse)
    (messages : List Message) : Except String String :=
  let payload := ollamaPayloadFor llm messages
  let response_data := respond payload
  let message_content := response_data.message.bind fun m => m.content
  match message_content with
  | some c => if c = "" then .error "Ollama API 返回的响应结构无效" else .ok c
  | none => .error "Ollama API 返回的响应结构无效"

/-- `LLM.generate_report`: augments the prompt, builds the two-message
exchange, and dispatches on `self.model`.  Both providers' behaviours are
supplied as oracles so that the same definition covers either selected
backend. -/
def LLM.generate_report (llm : LLM) (system_prompt user_content : String)
    (openaiRespond : String → List Message → OpenAIResponse)
    (ollamaRespond : OllamaPayload → OllamaResponse) : Except String String :=
  let messages := reportMessages system_prompt user_content
  if llm.model = "openai" then
    llm.generateReportOpenai openaiRespond messages
  else if llm.model = "ollama" then
    llm.generateReportOllama ollamaRespond messages
  else
    .error ("Unsupported model: " ++ llm.model)

/-- Concrete configuration selecting the hosted backend. -/
def testConfigOpenai : Config :=
  { llm_model_type := "openai"
    openai_model_name := "gpt-4o-mini"
    ollama_model_name := "llama3"
    ollama_api_url := "http://localhost:11434/api/chat" }

/-- Concrete configuration selecting the local backend. -/
def testConfigOllama : Config :=
  { llm_model_type := "ollama"
    openai_model_name := "gpt-4o-mini"
    ollama_model_name := "llama3"
    ollama_api_url := "http://localhost:11434/api/chat" }

/-- Concrete configuration with an unrecognized backend kind. -/
def testConfigBad : Config :=
  { llm_model_type := "gpt4"
    openai_model_name := "gpt-4o-mini"
    ollama_model_name := "llama3"
    ollama_api_url := "http://localhost:11434/api/chat" }

/-- Concrete configuration whose backend kind is an uppercase spelling of
a recognized value. -/
def testConfigUpper : Config :=
  { llm_model_type := "OPENAI"
    openai_model_name := "gpt-4o-mini"
    ollama_model_name := "llama3"
    ollama_api_url := "http://localhost:11434/api/chat" }

/-- The facade state produced by `LLM.init testConfigOpenai`. -/
def testLLMOpenai : LLM :=
  { config := testConfigOpenai, model := "openai", handle := .client }

/-- The facade state produced by `LLM.init testConfigOllama`. -/
def testLLMOllama : LLM :=
  { config := testConfigOllama, model := "ollama"
    handle := .apiUrl testConfigOllama.ollama_api_url }

/-- The fixed text of the composed prompt surrounding the validation
slot, as a character list: everything `generate_report` appends after
`system_prompt` when the slot is empty. -/
def fixedTemplate : List Char :=
  promptMid.data ++ promptEnd.data

/-- The characters of `validation_note` after its leading newline. -/
def noteTail : List Char :=
  validation_note.data.tail

lemma pyIn_eq_true_iff {needle hay : String} :
    pyIn needle hay = true ↔ needle.data <:+: hay.data := by
  simp [pyIn]

lemma pyIn_eq_false_iff {needle hay : String} :
    pyIn needle hay = false ↔ ¬ needle.data <:+: hay.data := by
  simp [pyIn]

/-- An infix of a concatenation is an infix of the left part, an infix of
the right part, or splits into a suffix of the left part followed by a
prefix of the right part. -/
lemma isInfixAppendCases {α : Type} {p a b : List α} (h : p <:+: a ++ b) :
    p <:+: a ∨ p <:+: b ∨ ∃ s t, p = s ++ t ∧ s <:+ a ∧ t <+: b := by
  obtain ⟨u, v, huv⟩ := h
  rw [List.append_assoc] at huv
  rcases List.append_eq_append_iff.mp huv with ⟨w, ha, hpv⟩ | ⟨w, _, hb⟩
  · rcases List.append_eq_append_iff.mp hpv with ⟨x, hw, _⟩ | ⟨y, hp, hbb⟩
    · left
      exact ⟨u, x, by rw [ha, hw, List.append_assoc]⟩
    · right; right
      exact ⟨w, y, hp, ⟨u, ha.symm⟩, ⟨v, hbb.symm⟩⟩
  · right; left
    exact ⟨w, v, by rw [hb, List.append_assoc]⟩

lemma validation_note_data_eq : validation_note.data = '\n' :: noteTail := rfl

lemma fixedTemplate_head_eq : fixedTemplate = '\n' :: fixedTemplate.tail := rfl

lemma warn_char_mem_validation_note : ('警' : Char) ∈ validation_note.data := by
  decide

lemma warn_char_not_mem_fixedTemplate : ('警' : Char) ∉ fixedTemplate := by
  decide

lemma newline_not_mem_noteTail : ('\n' : Char) ∉ noteTail := by
  decide

/-- If the warning text does not occur in `system_prompt` then it does not
occur in `system_prompt` followed by the fixed template text: the template
itself is warning-free, and no occurrence can straddle the boundary
because the warning starts with its only newline while the template text
starts with a newline. -/
lemma validation_note_not_infix_append (sp : List Char)
    (hsp : ¬ validation_note.data <:+: sp) :
    ¬ validation_note.data <:+: sp ++ fixedTemplate := by
  intro h
  rcases isInfixAppendCases h with h1 | h2 | ⟨s, t, hst, hs, ht⟩
  · exact hsp h1
  · exact warn_char_not_mem_fixedTemplate
      (h2.sublist.subset warn_char_mem_validation_note)
  · rcases t with _ | ⟨d, t'⟩
    · rw [List.append_nil] at hst
      exact hsp (by rw [hst]; exact hs.isInfix)
    · obtain ⟨r, hr⟩ := ht
      have hd : d = '\n' := by
        rw [fixedTemplate_head_eq, List.cons_append] at hr
        exact (List.cons.injEq _ _ _ _).mp hr |>.1
      rcases s with _ | ⟨c, s'⟩
      · rw [List.nil_append] at hst
        have hinf : validation_note.data <:+: fixedTemplate :=
          ⟨[], r, by rw [List.nil_append, hst, hr]⟩
        exact warn_char_not_mem_fixedTemplate
          (hinf.sublist.subset warn_char_mem_validation_note)
      · rw [validation_note_data_eq, List.cons_append] at hst
        have htl : noteTail = s' ++ d :: t' :=
          ((List.cons.injEq _ _ _ _).mp hst).2
        apply newline_not_mem_noteTail
        rw [htl, hd]
        exact List.mem_append_right _ (List.mem_cons_self _ _)

/-- When the completeness check fails, the validation slot holds the
warning text, which is therefore an infix of the composed prompt. -/
lemma validation_note_infix_optimizedPrompt (sp uc : String)
    (h : validationSlot uc = validation_note) :
    validation_note.data <:+: (optimizedPrompt sp uc).data := by
  refine ⟨sp.data ++ promptMid.data, promptEnd.data, ?_⟩
  simp [optimizedPrompt, h, List.append_assoc]

/-- Claim C2: for every `user_content`, the composed prompt built by
`generate_report` contains the warning text exactly when at least one of
the three required section labels does not occur in `user_content`
(stated for any `system_prompt` that does not itself contain the warning
text, since the warning can only enter the prompt through the slot or
through `system_prompt`). -/
theorem optimizedPrompt_completeness_warning (system_prompt user_content : String)
    (hsp : pyIn validation_note system_prompt = false) :
    pyIn validation_note (optimizedPrompt system_prompt user_content) =
      !(required_sections.all fun sec => pyIn sec user_content) := by
  cases hall : required_sections.all fun sec => pyIn sec user_content
  · have hslot : validationSlot user_content = validation_note := by
      simp [validationSlot, hall]
    simp only [Bool.not_false]
    exact pyIn_eq_true_iff.mpr
      (validation_note_infix_optimizedPrompt system_prompt user_content hslot)
  · have hslot : validationSlot user_content = "" := by
      simp [validationSlot, hall]
    simp only [Bool.not_true]
    rw [pyIn_eq_false_iff]
    have hdata : (optimizedPrompt system_prompt user_content).data
        = system_prompt.data ++ fixedTemplate := by
      simp [optimizedPrompt, hslot, fixedTemplate]
    rw [hdata]
    exact validation_note_not_infix_append system_prompt.data
      (pyIn_eq_false_iff.mp hsp)

/-- Witness for C2 at `system_prompt = "Summarize."` and a
`user_content` containing all three section labels. -/
theorem optimizedPrompt_completeness_warning_witness :
    pyIn validation_note "Summarize." = false ∧
    pyIn validation_note
        (optimizedPrompt "Summarize." "新增功能：a。主要改进：b。修复问题：c。") =
      !(required_sections.all fun sec =>
        pyIn sec "新增功能：a。主要改进：b。修复问题：c。") :=
  ⟨by decide,
   optimizedPrompt_completeness_warning "Summarize."
     "新增功能：a。主要改进：b。修复问题：c。" (by decide)⟩


/-- Claim C1 (amended): construction succeeds exactly when the lowercased
backend kind is one of the two recognized values; for any configuration
whose lowercased kind is neither, construction fails with the
`ValueError` and no facade state is produced. -/
theorem LLM_init_backend_kind_validation (config : Config) :
    ((pyLower config.llm_model_type = "openai" ∨
        pyLower config.llm_model_type = "ollama") →
      ∃ llm, LLM.init config = .ok llm) ∧
    (pyLower config.llm_model_type ≠ "openai" →
      pyLower config.llm_model_type ≠ "ollama" →
      LLM.init config = .error ("不支持的模型类型: " ++ pyLower config.llm_model_type)) := by
  constructor
  · rintro (h | h)
    · exact ⟨⟨config, pyLower config.llm_model_type, .client⟩, by simp [LLM.init, h]⟩
    · exact ⟨⟨config, pyLower config.llm_model_type, .apiUrl config.ollama_api_url⟩,
        by simp [LLM.init, h]⟩
  · intro h1 h2
    simp [LLM.init, h1, h2]

/-- Witness for C1: a recognized kind constructs, an unrecognized kind
fails with the error value. -/
theorem LLM_init_backend_kind_validation_witness :
    (∃ llm, LLM.init testConfigOllama = .ok llm) ∧
    LLM.init testConfigBad =
      .error ("不支持的模型类型: " ++ pyLower testConfigBad.llm_model_type) :=
  ⟨(LLM_init_backend_kind_validation testConfigOllama).1 (Or.inr (by decide)),
   (LLM_init_backend_kind_validation testConfigBad).2 (by decide) (by decide)⟩

/-- Counterexample to C1 as stated: `"OPENAI"` is not one of the two
recognized values, yet construction succeeds (the code lowercases the
configured kind before matching). -/
theorem LLM_init_accepts_unrecognized_spelling :
    ("OPENAI" ≠ "openai" ∧ "OPENAI" ≠ "ollama") ∧
    ∃ llm, LLM.init testConfigUpper = .ok llm :=
  ⟨⟨by decide, by decide⟩, ⟨⟨testConfigUpper, "openai", .client⟩, rfl⟩⟩

/-- Claim C9: backend-kind matching is case-insensitive; whenever the
lowercasing of the configured kind equals a recognized value the
construction succeeds, stores the lowercased kind, and selects the
corresponding backend attribute. -/
theorem LLM_init_case_insensitive (config : Config)
    (h : pyLower config.llm_model_type = "openai" ∨
      pyLower config.llm_model_type = "ollama") :
    ∃ llm, LLM.init config = .ok llm ∧
      llm.model = pyLower config.llm_model_type ∧
      (pyLower config.llm_model_type = "openai" → llm.handle = .client) ∧
      (pyLower config.llm_model_type = "ollama" →
        llm.handle = .apiUrl config.ollama_api_url) := by
  rcases h with h | h
  · refine ⟨⟨config, pyLower config.llm_model_type, .client⟩,
      by simp [LLM.init, h], rfl, fun _ => rfl, fun h2 => ?_⟩
    exact absurd (h.symm.trans h2) (by decide)
  · refine ⟨⟨config, pyLower config.llm_model_type, .apiUrl config.ollama_api_url⟩,
      by simp [LLM.init, h], rfl, fun h2 => ?_, fun _ => rfl⟩
    exact absurd (h.symm.trans h2) (by decide)

/-- Witness for C9 at the mixed-case kind `"OpenAI"`. -/
theorem LLM_init_case_insensitive_witness :
    ∃ llm, LLM.init
        { llm_model_type := "OpenAI"
          openai_model_name := "gpt-4o-mini"
          ollama_model_name := "llama3"
          ollama_api_url := "http://localhost:11434/api/chat" } = .ok llm ∧
      llm.model = pyLower "OpenAI" ∧
      (pyLower "OpenAI" = "openai" → llm.handle = .client) ∧
      (pyLower "OpenAI" = "ollama" →
        llm.handle = .apiUrl "http://localhost:11434/api/chat") :=
  LLM_init_case_insensitive
    { llm_model_type := "OpenAI"
      openai_model_name := "gpt-4o-mini"
      ollama_model_name := "llama3"
      ollama_api_url := "http://localhost:11434/api/chat" } (Or.inl (by decide))

/-- Successful construction forces the stored backend kind to be one of
the two recognized values. -/
lemma LLM_init_ok_model {config : Config} {llm : LLM}
    (h : LLM.init config = .ok llm) :
    llm.model = "openai" ∨ llm.model = "ollama" := by
  simp only [LLM.init] at h
  by_cases h1 : pyLower config.llm_model_type = "openai"
  · simp [h1] at h
    left
    rw [← h]
  · by_cases h2 : pyLower config.llm_model_type = "ollama"
    · simp [h1, h2] at h
      right
      rw [← h]
    · simp [h1, h2] at h

/-- Claim C3: the local adapter returns exactly the nested
`message.content` string when it is present and non-empty, and raises the
`ValueError` (does not return an empty string) when the `message` object
or its `content` field is absent or the content is the empty string. -/
theorem generateReportOllama_content_extraction (llm : LLM)
    (respond : OllamaPayload → OllamaResponse) (messages : List Message) :
    (∀ c : String,
      (respond (ollamaPayloadFor llm messages)).message.bind (fun m => m.content) = some c →
      c ≠ "" →
      llm.generateReportOllama respond messages = .ok c) ∧
    ((respond (ollamaPayloadFor llm messages)).message.bind (fun m => m.content) = none ∨
      (respond (ollamaPayloadFor llm messages)).message.bind (fun m => m.content) = some "" →
      llm.generateReportOllama respond messages = .error "Ollama API 返回的响应结构无效") := by
  constructor
  · intro c hc hne
    simp [LLM.generateReportOllama, hc, hne]
  · rintro (hc | hc) <;> simp [LLM.generateReportOllama, hc]

/-- Witness for C3: the mocked body `{message: {content: "Local report"}}`
yields `"Local report"`, and `{message: {}}` yields the error. -/
theorem generateReportOllama_content_extraction_witness :
    testLLMOllama.generateReportOllama
        (fun _ => { message := some { content := some "Local report" } }) []
      = .ok "Local report" ∧
    testLLMOllama.generateReportOllama
        (fun _ => { message := some { content := none } }) []
      = .error "Ollama API 返回的响应结构无效" :=
  ⟨(generateReportOllama_content_extraction testLLMOllama
      (fun _ => { message := some { content := some "Local report" } }) []).1
      "Local report" rfl (by decide),
   (generateReportOllama_content_extraction testLLMOllama
      (fun _ => { message := some { content := none } }) []).2 (Or.inl rfl)⟩

/-- Claim C4: the hosted adapter returns exactly the message content of
the first completion choice, unmodified. -/
theorem generateReportOpenai_first_choice (llm : LLM)
    (respond : String → List Message → OpenAIResponse) (messages : List Message)
    (choice : OpenAIChoice) (rest : List OpenAIChoice)
    (h : (respond llm.config.openai_model_name messages).choices = choice :: rest) :
    llm.generateReportOpenai respond messages = .ok choice.message.content := by
  simp [LLM.generateReportOpenai, h]

/-- Witness for C4: a single choice with content `"Report body"` yields
exactly `"Report body"`. -/
theorem generateReportOpenai_first_choice_witness :
    testLLMOpenai.generateReportOpenai
        (fun _ _ => { choices := [{ message := { content := "Report body" } }] }) []
      = .ok "Report body" :=
  generateReportOpenai_first_choice testLLMOpenai
    (fun _ _ => { choices := [{ message := { content := "Report body" } }] }) []
    { message := { content := "Report body" } } [] rfl

/-- Claim C5: for either selected backend, `generate_report` returns
exactly the string the adapter produced, with no post-processing between
the adapter's return and the facade's return. -/
theorem generate_report_returns_adapter_output (llm : LLM)
    (system_prompt user_content : String)
    (openaiRespond : String → List Message → OpenAIResponse)
    (ollamaRespond : OllamaPayload → OllamaResponse) (s : String) :
    (llm.model = "openai" →
      llm.generateReportOpenai openaiRespond (reportMessages system_prompt user_content)
        = .ok s →
      llm.generate_report system_prompt user_content openaiRespond ollamaRespond = .ok s) ∧
    (llm.model = "ollama" →
      llm.generateReportOllama ollamaRespond (reportMessages system_prompt user_content)
        = .ok s →
      llm.generate_report system_prompt user_content openaiRespond ollamaRespond = .ok s) := by
  constructor
  · intro hm hres
    simp [LLM.generate_report, hm, hres]
  · intro hm hres
    simp [LLM.generate_report, hm, hres]

/-- Witness for C5: the end-to-end hosted scenario, with the mocked
provider returning the report text. -/
theorem generate_report_returns_adapter_output_witness :
    testLLMOpenai.generate_report "Summarize." "# Progress\n- fix bug #1"
        (fun _ _ => { choices := [{ message := { content := "## Summary\n..." } }] })
        (fun _ => { message := none })
      = .ok "## Summary\n..." :=
  (generate_report_returns_adapter_output testLLMOpenai "Summarize."
      "# Progress\n- fix bug #1"
      (fun _ _ => { choices := [{ message := { content := "## Summary\n..." } }] })
      (fun _ => { message := none }) "## Summary\n...").1 rfl rfl

/-- Claim C6: the composed-prompt construction is a deterministic pure
function of its two arguments: identical inputs give the identical
composed prompt (inputs are immutable string values in this embedding,
matching Python string immutability). -/
theorem optimizedPrompt_deterministic (sp uc sp' uc' : String)
    (h1 : sp = sp') (h2 : uc = uc') :
    optimizedPrompt sp uc = optimizedPrompt sp' uc' := by
  rw [h1, h2]

/-- Witness for C6 at concrete identical inputs. -/
theorem optimizedPrompt_deterministic_witness :
    optimizedPrompt "Summarize." "content" = optimizedPrompt "Summarize." "content" :=
  optimizedPrompt_deterministic "Summarize." "content" "Summarize." "content" rfl rfl

/-- Claim C7: every payload the local adapter posts carries the
configured model identifier, the message sequence, `max_tokens = 4000`,
`temperature = 0.7`, and `stream = false`. -/
theorem ollamaPayloadFor_fields (llm : LLM) (messages : List Message) :
    (ollamaPayloadFor llm messages).model = llm.config.ollama_model_name ∧
    (ollamaPayloadFor llm messages).messages = messages ∧
    (ollamaPayloadFor llm messages).max_tokens = 4000 ∧
    (ollamaPayloadFor llm messages).temperature = 0.7 ∧
    (ollamaPayloadFor llm messages).stream = false :=
  ⟨rfl, rfl, rfl, rfl, rfl⟩

/-- Claim C8: the exchange passed to the selected adapter is exactly two
messages, the system message (carrying the composed prompt) strictly
before the user message (carrying `user_content`). -/
theorem reportMessages_two_message_exchange (system_prompt user_content : String) :
    (reportMessages system_prompt user_content).length = 2 ∧
    reportMessages system_prompt user_content =
      [{ role := "system", content := optimizedPrompt system_prompt user_content },
       { role := "user", content := user_content }] :=
  ⟨rfl, rfl⟩

/-- Claim C10: after a successful construction the dispatch in
`generate_report` always takes one of the two adapter branches, and the
final `Unsupported model` branch is unreachable. -/
theorem generate_report_dispatch_no_unsupported
    (config : Config) (llm : LLM) (system_prompt user_content : String)
    (openaiRespond : String → List Message → OpenAIResponse)
    (ollamaRespond : OllamaPayload → OllamaResponse)
    (h : LLM.init config = .ok llm) :
    (llm.model = "openai" ∨ llm.model = "ollama") ∧
    ((llm.model = "openai" ∧
        llm.generate_report system_prompt user_content openaiRespond ollamaRespond =
          llm.generateReportOpenai openaiRespond
            (reportMessages system_prompt user_content)) ∨
      (llm.model = "ollama" ∧
        llm.generate_report system_prompt user_content openaiRespond ollamaRespond =
          llm.generateReportOllama ollamaRespond
            (reportMessages system_prompt user_content))) ∧
    llm.generate_report system_prompt user_content openaiRespond ollamaRespond ≠
      .error ("Unsupported model: " ++ llm.model) := by
  have hm := LLM_init_ok_model h
  refine ⟨hm, ?_, ?_⟩
  · rcases hm with hm | hm
    · exact Or.inl ⟨hm, by simp [LLM.generate_report, hm]⟩
    · exact Or.inr ⟨hm, by simp [LLM.generate_report, hm]⟩
  · rcases hm with hm | hm
    · intro hne
      rw [hm] at hne
      simp only [LLM.generate_report, hm, if_pos] at hne
      rcases hresp : (openaiRespond llm.config.openai_model_name
          (reportMessages system_prompt user_content)).choices with _ | ⟨c, cs⟩ <;>
        simp [LLM.generateReportOpenai, hresp] at hne
    · intro hne
      rw [hm] at hne
      simp only [LLM.generate_report, hm] at hne
      rcases hresp : (ollamaRespond (ollamaPayloadFor llm
          (reportMessages system_prompt user_content))).message.bind
          (fun m => m.content) with _ | c
      · simp [LLM.generateReportOllama, hresp] at hne
      · by_cases hc : c = ""
        · simp [LLM.generateReportOllama, hresp, hc] at hne
        · simp [LLM.generateReportOllama, hresp, hc] at hne

/-- Witness for C10 at a concretely constructed hosted facade. -/
theorem generate_report_dispatch_no_unsupported_witness :
    (testLLMOpenai.model = "openai" ∨ testLLMOpenai.model = "ollama") ∧
    ((testLLMOpenai.model = "openai" ∧
        testLLMOpenai.generate_report "Summarize." "content"
            (fun _ _ => { choices := [] }) (fun _ => { message := none }) =
          testLLMOpenai.generateReportOpenai (fun _ _ => { choices := [] })
            (reportMessages "Summarize." "content")) ∨
      (testLLMOpenai.model = "ollama" ∧
        testLLMOpenai.generate_report "Summarize." "content"
            (fun _ _ => { choices := [] }) (fun _ => { message := none }) =
          testLLMOpenai.generateReportOllama (fun _ => { message := none })
            (reportMessages "Summarize." "content"))) ∧
    testLLMOpenai.generate_report "Summarize." "content"
        (fun _ _ => { choices := [] }) (fun _ => { message := none }) ≠
      .error ("Unsupported model: " ++ testLLMOpenai.model) :=
  generate_report_dispatch_no_unsupported testConfigOpenai testLLMOpenai
    "Summarize." "content" (fun _ _ => { choices := [] })
    (fun _ => { message := none }) rfl
